import Mathlib

/-!
Verification development for the TrafficSense-AI repository.

The repository is a browser dashboard whose core is a frame-capture and
analysis scheduling loop.  This file gives a shallow embedding of the parts
of the code relevant to the frozen claims:

* `GeminiService` — `services/geminiService.ts` (third file concatenated in
  `src/unnamed/part_000`): the `analyzeTrafficFrame` client, its API-key
  check, response-field copying, and quota reclassification of errors.
* `CameraFeedA` — the `CameraFeed` component found in `src/unnamed/part_000`
  (the variant with `nextRetryTimeRef`, `handleForceRetry` and the
  10s-floor / 120s-ceiling backoff).
* `CameraFeedB` — `src/components/CameraFeed.tsx` (the variant with the
  30s-floor / 300s-ceiling backoff and no eligibility gate).
* `App` — `src/App.tsx`: history buffer, latest result, error banner.

Numbers: all times are epoch milliseconds as `ℕ`; the only non-integer
delay in the code is `intervalMs * 1.5`, which is modelled exactly in `ℚ`
(for the concrete `intervalMs = 20000` the float product is exact).
JavaScript runtime values that may be `undefined` despite their TypeScript
type (the fields copied from parsed JSON) are modelled as `Option`.
-/

/-- JavaScript `String.prototype.includes` on lists of characters:
`includesAux pat cs` is true iff `pat` occurs as a contiguous run in `cs`. -/
def includesAux (pat : List Char) : List Char → Bool
  | [] => pat.isEmpty
  | c :: rest => pat.isPrefixOf (c :: rest) || includesAux pat rest

/-- JavaScript `s.includes(search)`: substring containment test. -/
def includes (s search : String) : Bool :=
  includesAux search.data s.data

/-- A JavaScript error object as observed by the code: only the `name` and
`message` properties are ever inspected (`err.name === 'SecurityError'`,
`err.message`). -/
structure ErrObj where
  name : String
  message : String
deriving Repr, DecidableEq

/-- One detected object, from `types.ts` (`BoundingBox`). -/
structure BoundingBox where
  ymin : ℚ
  xmin : ℚ
  ymax : ℚ
  xmax : ℚ
  label : String
deriving Repr, DecidableEq

/-- One completed analysis cycle, from `types.ts` (`TrafficAnalysisResult`).
The first three fields are copied from parsed service JSON without runtime
validation, so at runtime they may be `undefined` despite the TypeScript
declaration; they are therefore `Option` here.  `detectedObjects` is always
an array because of the `json.detectedObjects || []` default, and
`timestamp` / `processedAt` are always set by the client. -/
structure TrafficAnalysisResult where
  vehicleCount : Option ℤ
  congestionLevel : Option String
  description : Option String
  detectedObjects : List BoundingBox
  timestamp : String
  processedAt : ℕ
deriving Repr, DecidableEq

namespace GeminiService

/-- Shape of `JSON.parse(response.text)` for the traffic schema: each
top-level field may be absent (the client never checks). -/
structure ServiceJson where
  vehicleCount : Option ℤ
  congestionLevel : Option String
  description : Option String
  detectedObjects : Option (List BoundingBox)
deriving Repr, DecidableEq

/-- Outcome of the `ai.models.generateContent` call: either a response whose
`text` property may be absent, or a thrown error. -/
inductive GenContentResult where
  | ok (text : Option String)
  | threw (e : ErrObj)
deriving Repr, DecidableEq

/-- Message of the error thrown when `process.env.API_KEY` is absent
(geminiService, `analyzeTrafficFrame`). -/
def apiKeyMissingMessage : String := "API Key not found in environment variables."

/-- JavaScript `String(error)` for an Error object: `"Name: message"`, or
just the name when the message is empty. -/
def strOfError (e : ErrObj) : String :=
  if e.message = "" then e.name else e.name ++ ": " ++ e.message

/-- The catch handler's `error.message || String(error)`. -/
def errMessageOf (e : ErrObj) : String :=
  if e.message = "" then strOfError e else e.message

/-- Quota detection of the service catch handler: substring checks for
`'429'`, `'RESOURCE_EXHAUSTED'`, `'quota'`, `'exceeded'`. -/
def quotaMarked (errorMessage : String) : Bool :=
  includes errorMessage "429" || includes errorMessage "RESOURCE_EXHAUSTED" ||
  includes errorMessage "quota" || includes errorMessage "exceeded"

/-- The `analyzeTrafficFrame` client.  Inputs that the JavaScript obtains
from its environment are parameters: the API key (`process.env.API_KEY`),
the result of the `generateContent` call, the outcome of
`JSON.parse(text)` (an error object when the parse throws), and the two
clock reads `new Date().toLocaleTimeString()` / `Date.now()`.  The body
follows the source: key check outside the try block; inside it, a missing
or empty `response.text` throws `"No response from Gemini"`, and a parsed
JSON object is copied field by field with only `detectedObjects` defaulted
via `|| []`; the catch handler rethrows quota-marked errors as
`"QUOTA_EXCEEDED"` and every other error unchanged. -/
def analyzeTrafficFrame (apiKey : Option String) (call : GenContentResult)
    (parsed : Except ErrObj ServiceJson) (tsStr : String) (nowMs : ℕ) :
    Except ErrObj TrafficAnalysisResult :=
  match apiKey with
  | none => .error ⟨"Error", apiKeyMissingMessage⟩
  | some _ =>
    let attempt : Except ErrObj TrafficAnalysisResult :=
      match call with
      | .threw e => .error e
      | .ok none => .error ⟨"Error", "No response from Gemini"⟩
      | .ok (some text) =>
        if text = "" then .error ⟨"Error", "No response from Gemini"⟩
        else
          match parsed with
          | .error e => .error e
          | .ok json =>
            .ok { vehicleCount := json.vehicleCount
                  congestionLevel := json.congestionLevel
                  description := json.description
                  detectedObjects := json.detectedObjects.getD []
                  timestamp := tsStr
                  processedAt := nowMs }
    match attempt with
    | .ok r => .ok r
    | .error e =>
      if quotaMarked (errMessageOf e) then .error ⟨"Error", "QUOTA_EXCEEDED"⟩
      else .error e

end GeminiService

/-- Outcome of the `try` block of `captureAndAnalyze` (drawing the frame,
encoding it, awaiting `analyzeTrafficFrame`): either a result, or a thrown
error object.  A cross-origin read failure while drawing / encoding throws
an error whose `name` is `"SecurityError"`. -/
inductive TryOutcome where
  | success (r : TrafficAnalysisResult)
  | thrown (e : ErrObj)
deriving Repr, DecidableEq

/-- The user-visible message `captureAndAnalyze` passes to `onError` when it
catches a `SecurityError` (identical in both CameraFeed variants). -/
def corsErrorMessage : String :=
  "CORS Error: Cannot analyze this video stream. The server must allow cross-origin access (Access-Control-Allow-Origin)."

/-- How a `captureAndAnalyze` invocation resolved, as seen by the loop. -/
inductive CaptureOutput where
  | skipped
  | success (r : TrafficAnalysisResult)
  | surfaced (msg : String)
  | thrown (e : ErrObj)
deriving Repr, DecidableEq

/-- The `captureAndAnalyze` callback (present in both CameraFeed variants
with the same control flow; only the JPEG quality constant differs, which
is not modelled).  It returns early when a ref is unset or the stream is
inactive or the canvas context is unavailable; it catches a thrown error
and, when `err.name === 'SecurityError'`, surfaces `corsErrorMessage`
through `onError` and resolves normally; every other error is rethrown to
the loop. -/
def captureAndAnalyze (videoRefSet canvasRefSet isStreamActive ctxSet : Bool)
    (t : TryOutcome) : CaptureOutput :=
  if !videoRefSet || !canvasRefSet || !isStreamActive then .skipped
  else if !ctxSet then .skipped
  else
    match t with
    | .success r => .success r
    | .thrown e =>
      if e.name = "SecurityError" then .surfaced corsErrorMessage else .thrown e

/-- The loop's `err.message || JSON.stringify(err)`:
`JSON.stringify` of an Error object yields `"\x7b\x7d"` (no enumerable own
properties), which the source comment itself notes. -/
def loopErrorMessage (e : ErrObj) : String :=
  if e.message = "" then "\x7b\x7d" else e.message

/-- Quota detection of the scheduling loop (identical in both CameraFeed
variants): substring checks for `'QUOTA_EXCEEDED'`, `'429'`,
`'RESOURCE_EXHAUSTED'`. -/
def isQuota (errorMessage : String) : Bool :=
  includes errorMessage "QUOTA_EXCEEDED" || includes errorMessage "429" ||
  includes errorMessage "RESOURCE_EXHAUSTED"

/-- What one `loop` invocation scheduled on exit.  `exit` is a return with
nothing scheduled; `waitRecheck` is the `setTimeout(loop, 1000)` re-poll of
the eligibility gate; `scheduleNext d` is `setTimeout(loop, d)` after a
completed cycle.  Delays are in milliseconds, rational to model the exact
`intervalMs * 1.5` product. -/
inductive LoopEffect where
  | exit
  | waitRecheck
  | scheduleNext (delayMs : ℚ)
deriving Repr, DecidableEq

namespace CameraFeedA

/-- Scheduler state of the `CameraFeed` in `src/unnamed/part_000`:
`errorCountRef.current`, `nextRetryTimeRef.current` (epoch ms, 0 when
unconstrained), and the `isRateLimited` / `retryCountdown` state cells. -/
structure LoopState where
  errorCount : ℕ
  nextRetryTime : ℕ
  isRateLimited : Bool
  retryCountdown : ℕ
deriving Repr, DecidableEq

/-- Backoff of the quota branch (part_000 line 213):
`Math.min(10000 * Math.pow(2, errorCount - 1), 120000)`. -/
def backoffMs (errorCount : ℕ) : ℕ :=
  min (10000 * 2 ^ (errorCount - 1)) 120000

/-- UI countdown seconds started by the quota branch:
`Math.ceil(backoffMs / 1000)`. -/
def retryCountdownOf (b : ℕ) : ℕ := (b + 999) / 1000

/-- The `handleForceRetry` handler (part_000 lines 166-172): zero the error
count and the retry timestamp, clear the rate-limited flag.  It does not
touch `retryCountdown`. -/
def handleForceRetry (st : LoopState) : LoopState :=
  { st with errorCount := 0, nextRetryTime := 0, isRateLimited := false }

/-- One invocation of the `loop` function (part_000 lines 180-240).
Environment reads are parameters: `Date.now()`, the `isMounted` cleanup
flag, the `isAnalyzing` / `isStreamActive` values captured by the effect
closure, the ref/context availability flags consumed by
`captureAndAnalyze`, and the outcome of its try block.  Control flow
follows the source: early return when not analyzing or the stream is
inactive; the eligibility gate `Date.now() < nextRetryTimeRef.current`
re-polls in 1s; a normally-resolved `captureAndAnalyze` resets the error
count, clears the rate-limited flag and schedules after `intervalMs`; a
thrown error is classified by `isQuota` into the exponential-backoff branch
or the `intervalMs * 1.5` slow-retry branch. -/
def loop (intervalMs now : ℕ) (isMounted isAnalyzing isStreamActive : Bool)
    (videoRefSet canvasRefSet ctxSet : Bool) (t : TryOutcome)
    (st : LoopState) : LoopState × LoopEffect :=
  if !isAnalyzing || !isStreamActive then (st, .exit)
  else if now < st.nextRetryTime then (st, .waitRecheck)
  else
    match captureAndAnalyze videoRefSet canvasRefSet isStreamActive ctxSet t with
    | .thrown e =>
      if isMounted && isAnalyzing then
        if isQuota (loopErrorMessage e) then
          let ec := st.errorCount + 1
          let b := backoffMs ec
          ({ errorCount := ec, nextRetryTime := now + b, isRateLimited := true,
             retryCountdown := retryCountdownOf b },
           .scheduleNext (b : ℚ))
        else (st, .scheduleNext ((intervalMs : ℚ) * (3 / 2)))
      else (st, .exit)
    | _ =>
      if isMounted && isAnalyzing then
        ({ st with errorCount := 0, isRateLimited := false },
         .scheduleNext (intervalMs : ℚ))
      else (st, .exit)

/-- Events driving the scheduler state between cycles: one `loop`
invocation (with its environment), or the user's force-retry click. -/
inductive SchedEvent where
  | cycle (now : ℕ) (isMounted isAnalyzing isStreamActive : Bool)
      (videoRefSet canvasRefSet ctxSet : Bool) (t : TryOutcome)
  | forceRetry
deriving Repr, DecidableEq

/-- State transition of one scheduler event. -/
def schedStep (intervalMs : ℕ) (st : LoopState) : SchedEvent → LoopState
  | .cycle now m an ac v c cx t => (loop intervalMs now m an ac v c cx t st).1
  | .forceRetry => handleForceRetry st

/-- Successive states produced by a list of scheduler events. -/
def schedStates (intervalMs : ℕ) (st : LoopState) : List SchedEvent → List LoopState
  | [] => []
  | e :: es =>
    schedStep intervalMs st e :: schedStates intervalMs (schedStep intervalMs st e) es

end CameraFeedA

namespace CameraFeedB

/-- Scheduler state of `src/components/CameraFeed.tsx`: this variant has no
retry timestamp and no countdown, only `errorCountRef.current` and the
`isRateLimited` cell. -/
structure LoopState where
  errorCount : ℕ
  isRateLimited : Bool
deriving Repr, DecidableEq

/-- Backoff of the quota branch (CameraFeed.tsx line 181):
`Math.min(30000 * Math.pow(2, errorCount - 1), 300000)`. -/
def backoffMs (errorCount : ℕ) : ℕ :=
  min (30000 * 2 ^ (errorCount - 1)) 300000

/-- One invocation of the `loop` function (CameraFeed.tsx lines 155-198).
Same shape as the part_000 variant minus the eligibility gate: early
return when not analyzing or inactive; success resets the error count and
schedules after `intervalMs`; a thrown quota error backs off
exponentially; any other thrown error retries after `intervalMs * 1.5`. -/
def loop (intervalMs : ℕ) (isMounted isAnalyzing isStreamActive : Bool)
    (videoRefSet canvasRefSet ctxSet : Bool) (t : TryOutcome)
    (st : LoopState) : LoopState × LoopEffect :=
  if !isAnalyzing || !isStreamActive then (st, .exit)
  else
    match captureAndAnalyze videoRefSet canvasRefSet isStreamActive ctxSet t with
    | .thrown e =>
      if isMounted && isAnalyzing then
        if isQuota (loopErrorMessage e) then
          let ec := st.errorCount + 1
          ({ errorCount := ec, isRateLimited := true },
           .scheduleNext (backoffMs ec : ℚ))
        else (st, .scheduleNext ((intervalMs : ℚ) * (3 / 2)))
      else (st, .exit)
    | _ =>
      if isMounted && isAnalyzing then
        ({ st with errorCount := 0, isRateLimited := false },
         .scheduleNext (intervalMs : ℚ))
      else (st, .exit)

end CameraFeedB

namespace App

/-- Top-level application state of `src/App.tsx`. -/
structure AppState where
  isAnalyzing : Bool
  history : List TrafficAnalysisResult
  latestResult : Option TrafficAnalysisResult
  error : Option String
deriving Repr, DecidableEq

/-- Initial `useState` values of `App`. -/
def initialAppState : AppState :=
  { isAnalyzing := false, history := [], latestResult := none, error := none }

/-- JavaScript `arr.slice(-n)` for `n ≥ 1`: the last `n` elements (the whole
array when it is shorter). -/
def sliceNeg (n : ℕ) (l : List α) : List α := l.drop (l.length - n)

/-- The `handleAnalysisComplete` callback (App.tsx lines 13-17): set the
latest result, append to history keeping the last 50 records, clear the
error banner. -/
def handleAnalysisComplete (st : AppState) (result : TrafficAnalysisResult) : AppState :=
  { st with latestResult := some result,
            history := sliceNeg 50 (st.history ++ [result]),
            error := none }

/-- The `handleError` callback (App.tsx lines 19-22): show the message and
stop analysis. -/
def handleError (st : AppState) (err : String) : AppState :=
  { st with error := some err, isAnalyzing := false }

end App

/-- Strict growth of a capped doubling backoff while it is below the cap. -/
theorem backoff_strict_aux (f c k : ℕ) (hf : 0 < f)
    (h : min (f * 2 ^ k) c < c) : min (f * 2 ^ k) c < min (f * 2 ^ (k + 1)) c := by
  have hab : f * 2 ^ (k + 1) = 2 * (f * 2 ^ k) := by ring
  have ha : 0 < f * 2 ^ k := by positivity
  rw [hab]
  omega

/-- Once a capped doubling backoff reaches the cap, it stays there. -/
theorem backoff_const_aux (f c k : ℕ) (h : min (f * 2 ^ k) c = c) :
    min (f * 2 ^ (k + 1)) c = c := by
  have hab : f * 2 ^ (k + 1) = 2 * (f * 2 ^ k) := by ring
  rw [hab]
  omega

/-- C1: for every number `n ≥ 1` of consecutive quota failures, the backoff
delay used by the scheduler loop (the `backoffMs` definition that the `loop`
quota branch applies to `errorCount + 1`) equals
`min(floor * 2^(n-1), ceiling)` milliseconds, in both CameraFeed variants
(floor 10000 / ceiling 120000 in part_000, floor 30000 / ceiling 300000 in
CameraFeed.tsx); as a function of `n` the delay is strictly increasing while
below the ceiling and constant once it equals the ceiling; both floors lie
in [10s, 30s] and both ceilings in [2min, 5min]. -/
theorem C1_backoff_formula (n : ℕ) (hn : 1 ≤ n) :
    (CameraFeedA.backoffMs n = min (10000 * 2 ^ (n - 1)) 120000 ∧
     CameraFeedB.backoffMs n = min (30000 * 2 ^ (n - 1)) 300000) ∧
    (CameraFeedA.backoffMs n < 120000 → CameraFeedA.backoffMs n < CameraFeedA.backoffMs (n + 1)) ∧
    (CameraFeedA.backoffMs n = 120000 → CameraFeedA.backoffMs (n + 1) = 120000) ∧
    (CameraFeedB.backoffMs n < 300000 → CameraFeedB.backoffMs n < CameraFeedB.backoffMs (n + 1)) ∧
    (CameraFeedB.backoffMs n = 300000 → CameraFeedB.backoffMs (n + 1) = 300000) ∧
    (10000 ≤ CameraFeedA.backoffMs 1 ∧ CameraFeedA.backoffMs 1 ≤ 30000 ∧
     10000 ≤ CameraFeedB.backoffMs 1 ∧ CameraFeedB.backoffMs 1 ≤ 30000) ∧
    (CameraFeedA.backoffMs n ≤ 120000 ∧ CameraFeedB.backoffMs n ≤ 300000) ∧
    (CameraFeedA.backoffMs 5 = 120000 ∧ 2 * 60000 ≤ 120000 ∧ 120000 ≤ 5 * 60000 ∧
     CameraFeedB.backoffMs 5 = 300000 ∧ 2 * 60000 ≤ 300000 ∧ 300000 ≤ 5 * 60000) := by
  obtain ⟨k, rfl⟩ : ∃ k, n = k + 1 := ⟨n - 1, by omega⟩
  refine ⟨⟨rfl, rfl⟩, ?_, ?_, ?_, ?_, ?_, ?_, ?_⟩
  · intro h
    have := backoff_strict_aux 10000 120000 k (by norm_num)
    simpa [CameraFeedA.backoffMs, Nat.add_sub_cancel] using
      this (by simpa [CameraFeedA.backoffMs, Nat.add_sub_cancel] using h)
  · intro h
    have := backoff_const_aux 10000 120000 k
    simpa [CameraFeedA.backoffMs, Nat.add_sub_cancel] using
      this (by simpa [CameraFeedA.backoffMs, Nat.add_sub_cancel] using h)
  · intro h
    have := backoff_strict_aux 30000 300000 k (by norm_num)
    simpa [CameraFeedB.backoffMs, Nat.add_sub_cancel] using
      this (by simpa [CameraFeedB.backoffMs, Nat.add_sub_cancel] using h)
  · intro h
    have := backoff_const_aux 30000 300000 k
    simpa [CameraFeedB.backoffMs, Nat.add_sub_cancel] using
      this (by simpa [CameraFeedB.backoffMs, Nat.add_sub_cancel] using h)
  · exact ⟨by decide, by decide, by decide, by decide⟩
  · exact ⟨Nat.min_le_right _ _, Nat.min_le_right _ _⟩
  · exact ⟨by decide, by decide, by decide, by decide, by decide, by decide⟩

/-- Witness for C1 at the concrete failure count 3. -/
theorem C1_backoff_formula_witness :
    (1 : ℕ) ≤ 3 ∧
    ((CameraFeedA.backoffMs 3 = min (10000 * 2 ^ (3 - 1)) 120000 ∧
      CameraFeedB.backoffMs 3 = min (30000 * 2 ^ (3 - 1)) 300000) ∧
     (CameraFeedA.backoffMs 3 < 120000 → CameraFeedA.backoffMs 3 < CameraFeedA.backoffMs (3 + 1)) ∧
     (CameraFeedA.backoffMs 3 = 120000 → CameraFeedA.backoffMs (3 + 1) = 120000) ∧
     (CameraFeedB.backoffMs 3 < 300000 → CameraFeedB.backoffMs 3 < CameraFeedB.backoffMs (3 + 1)) ∧
     (CameraFeedB.backoffMs 3 = 300000 → CameraFeedB.backoffMs (3 + 1) = 300000) ∧
     (10000 ≤ CameraFeedA.backoffMs 1 ∧ CameraFeedA.backoffMs 1 ≤ 30000 ∧
      10000 ≤ CameraFeedB.backoffMs 1 ∧ CameraFeedB.backoffMs 1 ≤ 30000) ∧
     (CameraFeedA.backoffMs 3 ≤ 120000 ∧ CameraFeedB.backoffMs 3 ≤ 300000) ∧
     (CameraFeedA.backoffMs 5 = 120000 ∧ 2 * 60000 ≤ 120000 ∧ 120000 ≤ 5 * 60000 ∧
      CameraFeedB.backoffMs 5 = 300000 ∧ 2 * 60000 ≤ 300000 ∧ 300000 ≤ 5 * 60000)) :=
  ⟨by decide, C1_backoff_formula 3 (by decide)⟩

/-- Bound on the history length after one append. -/
theorem handleAnalysisComplete_length_le (st : App.AppState) (r : TrafficAnalysisResult) :
    (App.handleAnalysisComplete st r).history.length ≤ 50 := by
  simp only [App.handleAnalysisComplete, App.sliceNeg, List.length_drop, List.length_append,
    List.length_singleton]
  omega

/-- Taking the last `n ≥ 1` elements of `l ++ [a]` keeps `a` last. -/
theorem sliceNeg_append_getLast {α : Type} (n : ℕ) (hn : 0 < n) (l : List α) (a : α) :
    (App.sliceNeg n (l ++ [a])).getLast? = some a := by
  unfold App.sliceNeg
  have hk : (l ++ [a]).length - n ≤ l.length := by
    simp only [List.length_append, List.length_singleton]
    omega
  rw [List.drop_append_of_le_length hk, List.getLast?_concat]

/-- C3: the history buffer never exceeds 50 entries — after any single
append, and after any sequence of appends starting from a state within the
bound; and appending to a buffer that already holds 50 entries produces
exactly the old buffer minus its oldest entry (FIFO) followed by the new
result, preserving insertion order. -/
theorem C3_history_fifo :
    (∀ (st : App.AppState) (r : TrafficAnalysisResult),
       (App.handleAnalysisComplete st r).history.length ≤ 50) ∧
    (∀ (st : App.AppState) (rs : List TrafficAnalysisResult),
       st.history.length ≤ 50 →
       (rs.foldl App.handleAnalysisComplete st).history.length ≤ 50) ∧
    (∀ (st : App.AppState) (r : TrafficAnalysisResult),
       st.history.length = 50 →
       (App.handleAnalysisComplete st r).history = st.history.tail ++ [r]) := by
  refine ⟨handleAnalysisComplete_length_le, ?_, ?_⟩
  · intro st rs
    induction rs generalizing st with
    | nil => intro h; exact h
    | cons r rs ih =>
      intro _
      exact ih _ (handleAnalysisComplete_length_le st r)
  · intro st r h
    simp only [App.handleAnalysisComplete, App.sliceNeg, List.length_append,
      List.length_singleton, h]
    have h1 : (51 : ℕ) - 50 = 1 := by norm_num
    rw [h1, List.drop_append_of_le_length (by omega), List.drop_one]

/-- Witness for C3 at a concrete 50-entry history. -/
theorem C3_history_fifo_witness :
    (({ isAnalyzing := true,
        history := List.replicate 50 ⟨none, none, none, [], "a", 0⟩,
        latestResult := none, error := none } : App.AppState).history.length = 50) ∧
    (App.handleAnalysisComplete
        { isAnalyzing := true,
          history := List.replicate 50 ⟨none, none, none, [], "a", 0⟩,
          latestResult := none, error := none }
        ⟨some 1, none, none, [], "b", 1⟩).history =
      ({ isAnalyzing := true,
         history := List.replicate 50 ⟨none, none, none, [], "a", 0⟩,
         latestResult := none, error := none } : App.AppState).history.tail ++
        [⟨some 1, none, none, [], "b", 1⟩] :=
  ⟨by decide, C3_history_fifo.2.2 _ _ (by decide)⟩

/-- C10: invariant of the top-level application state: initially the history
is empty and `latestResult` is null, and every successful analysis sets
`latestResult` to the very result it appends, so `latestResult` always
equals the last element of the (non-empty) history — `handleAnalysisComplete`
re-establishes `latestResult = history.getLast?` from any prior state. -/
theorem C10_latest_matches_history :
    (App.initialAppState.latestResult = none ∧ App.initialAppState.history = []) ∧
    (∀ (st : App.AppState) (r : TrafficAnalysisResult),
       (App.handleAnalysisComplete st r).latestResult = some r ∧
       (App.handleAnalysisComplete st r).history.getLast? = some r ∧
       (App.handleAnalysisComplete st r).latestResult =
         (App.handleAnalysisComplete st r).history.getLast?) := by
  refine ⟨⟨rfl, rfl⟩, ?_⟩
  intro st r
  have hlast : (App.handleAnalysisComplete st r).history.getLast? = some r :=
    sliceNeg_append_getLast 50 (by norm_num) st.history r
  refine ⟨rfl, hlast, ?_⟩
  rw [hlast]
  rfl

/-- Equation for an eligible successful cycle of the part_000 loop. -/
theorem loop_success_eq (I now : ℕ) (st : CameraFeedA.LoopState) (r : TrafficAnalysisResult)
    (helig : st.nextRetryTime ≤ now) :
    CameraFeedA.loop I now true true true true true true (.success r) st =
      ({ st with errorCount := 0, isRateLimited := false }, .scheduleNext (I : ℚ)) := by
  have h2 : ¬ now < st.nextRetryTime := Nat.not_lt.mpr helig
  simp [CameraFeedA.loop, captureAndAnalyze, h2]

/-- Equation for an eligible cycle of the part_000 loop whose try block threw
a non-SecurityError error. -/
theorem loop_thrown_eq (I now : ℕ) (st : CameraFeedA.LoopState) (e : ErrObj)
    (hname : e.name ≠ "SecurityError") (helig : st.nextRetryTime ≤ now) :
    CameraFeedA.loop I now true true true true true true (.thrown e) st =
      (if isQuota (loopErrorMessage e)
       then ({ errorCount := st.errorCount + 1,
               nextRetryTime := now + CameraFeedA.backoffMs (st.errorCount + 1),
               isRateLimited := true,
               retryCountdown :=
                 CameraFeedA.retryCountdownOf (CameraFeedA.backoffMs (st.errorCount + 1)) },
             .scheduleNext (CameraFeedA.backoffMs (st.errorCount + 1) : ℚ))
       else (st, .scheduleNext ((I : ℚ) * (3 / 2)))) := by
  have h2 : ¬ now < st.nextRetryTime := Nat.not_lt.mpr helig
  simp [CameraFeedA.loop, captureAndAnalyze, h2, hname]

/-- Equation for a successful cycle of the CameraFeed.tsx loop. -/
theorem loopB_success_eq (I : ℕ) (stB : CameraFeedB.LoopState) (r : TrafficAnalysisResult) :
    CameraFeedB.loop I true true true true true true (.success r) stB =
      ({ stB with errorCount := 0, isRateLimited := false }, .scheduleNext (I : ℚ)) := by
  simp [CameraFeedB.loop, captureAndAnalyze]

/-- Equation for a cycle of the CameraFeed.tsx loop whose try block threw a
non-SecurityError error. -/
theorem loopB_thrown_eq (I : ℕ) (stB : CameraFeedB.LoopState) (e : ErrObj)
    (hname : e.name ≠ "SecurityError") :
    CameraFeedB.loop I true true true true true true (.thrown e) stB =
      (if isQuota (loopErrorMessage e)
       then ({ errorCount := stB.errorCount + 1, isRateLimited := true },
             .scheduleNext (CameraFeedB.backoffMs (stB.errorCount + 1) : ℚ))
       else (stB, .scheduleNext ((I : ℚ) * (3 / 2)))) := by
  simp [CameraFeedB.loop, captureAndAnalyze, hname]

/-- C4: a successfully completed analysis cycle resets the
consecutive-quota-failure counter to 0, clears the rate-limited flag, and
schedules the next cycle after the fixed normal polling interval, from any
prior scheduler state (in part_000 a cycle only completes when the
eligibility gate passed, hence the `nextRetryTime ≤ now` hypothesis; the
CameraFeed.tsx variant has no gate). -/
theorem C4_success_resets (I now : ℕ) (st : CameraFeedA.LoopState)
    (stB : CameraFeedB.LoopState) (r : TrafficAnalysisResult)
    (helig : st.nextRetryTime ≤ now) :
    CameraFeedA.loop I now true true true true true true (.success r) st =
      ({ st with errorCount := 0, isRateLimited := false }, .scheduleNext (I : ℚ)) ∧
    CameraFeedB.loop I true true true true true true (.success r) stB =
      ({ stB with errorCount := 0, isRateLimited := false }, .scheduleNext (I : ℚ)) :=
  ⟨loop_success_eq I now st r helig, loopB_success_eq I stB r⟩

/-- Witness for C4 at a concrete rate-limited prior state. -/
theorem C4_success_resets_witness :
    (⟨4, 3, true, 9⟩ : CameraFeedA.LoopState).nextRetryTime ≤ 3 ∧
    (CameraFeedA.loop 20000 3 true true true true true true
        (.success ⟨some 5, some "Medium", some "ok", [], "t", 1⟩) ⟨4, 3, true, 9⟩ =
       (⟨0, 3, false, 9⟩, .scheduleNext ((20000 : ℕ) : ℚ)) ∧
     CameraFeedB.loop 20000 true true true true true true
        (.success ⟨some 5, some "Medium", some "ok", [], "t", 1⟩) ⟨2, true⟩ =
       (⟨0, false⟩, .scheduleNext ((20000 : ℕ) : ℚ))) :=
  ⟨by decide, C4_success_resets 20000 3 ⟨4, 3, true, 9⟩ ⟨2, true⟩ _ (by decide)⟩

/-- C5: the manual override (`handleForceRetry`) resets the
consecutive-quota-failure counter to 0, clears `nextRetryTime` to 0 and the
rate-limited flag, so for every clock value the loop's eligibility check
`now < nextRetryTime` fails and the next loop entry never takes the
wait-and-recheck branch — there is no residual wait. -/
theorem C5_force_retry (st : CameraFeedA.LoopState) :
    (CameraFeedA.handleForceRetry st).errorCount = 0 ∧
    (CameraFeedA.handleForceRetry st).nextRetryTime = 0 ∧
    (CameraFeedA.handleForceRetry st).isRateLimited = false ∧
    (∀ now : ℕ, ¬ now < (CameraFeedA.handleForceRetry st).nextRetryTime) ∧
    (∀ (I now : ℕ) (v c cx : Bool) (t : TryOutcome),
      (CameraFeedA.loop I now true true true v c cx t (CameraFeedA.handleForceRetry st)).2 ≠
        LoopEffect.waitRecheck) := by
  refine ⟨rfl, rfl, rfl, fun now => Nat.not_lt_zero now, ?_⟩
  intro I now v c cx t
  unfold CameraFeedA.loop
  repeat' split
  all_goals simp_all [CameraFeedA.handleForceRetry]

/-- C6: an eligible cycle that throws a non-quota, non-SecurityError error
while the failure counter is 0 and the rate-limited flag is false leaves the
scheduler state unchanged (counter stays 0, flag stays false) and schedules
the next cycle at exactly 1.5 times the normal polling interval, in both
CameraFeed variants — no exponential growth. -/
theorem C6_transient_slowdown (I now : ℕ) (st : CameraFeedA.LoopState)
    (stB : CameraFeedB.LoopState) (e : ErrObj)
    (hname : e.name ≠ "SecurityError") (hq : isQuota (loopErrorMessage e) = false)
    (hec : st.errorCount = 0) (hrl : st.isRateLimited = false)
    (helig : st.nextRetryTime ≤ now)
    (hecB : stB.errorCount = 0) (hrlB : stB.isRateLimited = false) :
    (CameraFeedA.loop I now true true true true true true (.thrown e) st =
       (st, .scheduleNext ((I : ℚ) * (3 / 2))) ∧
     (CameraFeedA.loop I now true true true true true true (.thrown e) st).1.errorCount = 0 ∧
     (CameraFeedA.loop I now true true true true true true (.thrown e) st).1.isRateLimited =
       false) ∧
    (CameraFeedB.loop I true true true true true true (.thrown e) stB =
       (stB, .scheduleNext ((I : ℚ) * (3 / 2))) ∧
     (CameraFeedB.loop I true true true true true true (.thrown e) stB).1.errorCount = 0 ∧
     (CameraFeedB.loop I true true true true true true (.thrown e) stB).1.isRateLimited =
       false) := by
  have hA := loop_thrown_eq I now st e hname helig
  have hB := loopB_thrown_eq I stB e hname
  rw [hq] at hA hB
  simp only [if_false, Bool.false_eq_true] at hA hB
  rw [hA, hB]
  exact ⟨⟨rfl, hec, hrl⟩, ⟨rfl, hecB, hrlB⟩⟩

/-- Witness for C6 at a concrete unrecognized error message. -/
theorem C6_transient_slowdown_witness :
    ((⟨"Error", "Failed to fetch"⟩ : ErrObj).name ≠ "SecurityError" ∧
     isQuota (loopErrorMessage ⟨"Error", "Failed to fetch"⟩) = false ∧
     (⟨0, 0, false, 0⟩ : CameraFeedA.LoopState).errorCount = 0 ∧
     (⟨0, 0, false, 0⟩ : CameraFeedA.LoopState).nextRetryTime ≤ 0) ∧
    (CameraFeedA.loop 20000 0 true true true true true true
        (.thrown ⟨"Error", "Failed to fetch"⟩) ⟨0, 0, false, 0⟩ =
      (⟨0, 0, false, 0⟩, .scheduleNext ((20000 : ℚ) * (3 / 2))) ∧
     CameraFeedB.loop 20000 true true true true true true
        (.thrown ⟨"Error", "Failed to fetch"⟩) ⟨0, false⟩ =
      (⟨0, false⟩, .scheduleNext ((20000 : ℚ) * (3 / 2)))) :=
  ⟨⟨by decide, by decide, rfl, by decide⟩,
   ⟨(C6_transient_slowdown 20000 0 ⟨0, 0, false, 0⟩ ⟨0, false⟩ ⟨"Error", "Failed to fetch"⟩
       (by decide) (by decide) rfl rfl (by decide) rfl rfl).1.1,
    (C6_transient_slowdown 20000 0 ⟨0, 0, false, 0⟩ ⟨0, false⟩ ⟨"Error", "Failed to fetch"⟩
       (by decide) (by decide) rfl rfl (by decide) rfl rfl).2.1⟩⟩

/-- SecurityError-carrying try outcomes are never rethrown to the loop:
`captureAndAnalyze` either skips or surfaces the CORS message. -/
theorem captureAndAnalyze_security (v c ac cx : Bool) (m : String) :
    captureAndAnalyze v c ac cx (.thrown ⟨"SecurityError", m⟩) = .skipped ∨
    captureAndAnalyze v c ac cx (.thrown ⟨"SecurityError", m⟩) = .surfaced corsErrorMessage := by
  unfold captureAndAnalyze
  cases v <;> cases c <;> cases ac <;> cases cx <;> simp

/-- State preservation of the part_000 loop on a SecurityError cycle:
`nextRetryTime` is untouched, the failure counter never grows, and the
rate-limited flag is never raised. -/
theorem loop_security_preserves (I now : ℕ) (mnt an ac v c cx : Bool) (m : String)
    (st : CameraFeedA.LoopState) :
    (CameraFeedA.loop I now mnt an ac v c cx (.thrown ⟨"SecurityError", m⟩) st).1.nextRetryTime =
      st.nextRetryTime ∧
    (CameraFeedA.loop I now mnt an ac v c cx (.thrown ⟨"SecurityError", m⟩) st).1.errorCount ≤
      st.errorCount ∧
    ((CameraFeedA.loop I now mnt an ac v c cx (.thrown ⟨"SecurityError", m⟩) st).1.isRateLimited =
       st.isRateLimited ∨
     (CameraFeedA.loop I now mnt an ac v c cx (.thrown ⟨"SecurityError", m⟩) st).1.isRateLimited =
       false) := by
  unfold CameraFeedA.loop
  rcases captureAndAnalyze_security v c ac cx m with h | h <;> rw [h] <;> repeat' split
  all_goals simp_all

/-- C7: a cross-origin SecurityError during frame capture is surfaced as the
user-visible CORS message (shown by the App error banner), and — whatever the
loop's environment and prior state — it never alters `nextRetryTime`, never
increments the consecutive-quota-failure counter, and never raises the
rate-limited flag: the backoff policy is not triggered. -/
theorem C7_security_error (m : String) (I now : ℕ) (mnt an ac v c cx : Bool)
    (st : CameraFeedA.LoopState) (app : App.AppState) :
    captureAndAnalyze true true true true (.thrown ⟨"SecurityError", m⟩) =
      .surfaced corsErrorMessage ∧
    (CameraFeedA.loop I now mnt an ac v c cx (.thrown ⟨"SecurityError", m⟩) st).1.nextRetryTime =
      st.nextRetryTime ∧
    (CameraFeedA.loop I now mnt an ac v c cx (.thrown ⟨"SecurityError", m⟩) st).1.errorCount ≤
      st.errorCount ∧
    ((CameraFeedA.loop I now mnt an ac v c cx (.thrown ⟨"SecurityError", m⟩) st).1.isRateLimited =
       st.isRateLimited ∨
     (CameraFeedA.loop I now mnt an ac v c cx (.thrown ⟨"SecurityError", m⟩) st).1.isRateLimited =
       false) ∧
    (App.handleError app corsErrorMessage).error = some corsErrorMessage ∧
    (App.handleError app corsErrorMessage).isAnalyzing = false := by
  obtain ⟨h1, h2, h3⟩ := loop_security_preserves I now mnt an ac v c cx m st
  exact ⟨rfl, h1, h2, h3, rfl, rfl⟩

/-- C2, counterexample to the claim as stated: the ConfigurationError thrown
for a missing API credential does not stop the analysis loop.  At a concrete
eligible state, `analyzeTrafficFrame` with no key yields exactly the
missing-key error, that error matches no quota marker of the loop, and the
loop converts it into a `1.5 × intervalMs` reschedule with unchanged state —
not an exit. -/
theorem C2_config_error_counterexample :
    GeminiService.analyzeTrafficFrame none (.ok none) (.error ⟨"Error", ""⟩) "" 0 =
      .error ⟨"Error", GeminiService.apiKeyMissingMessage⟩ ∧
    isQuota (loopErrorMessage ⟨"Error", GeminiService.apiKeyMissingMessage⟩) = false ∧
    (CameraFeedA.loop 20000 0 true true true true true true
        (.thrown ⟨"Error", GeminiService.apiKeyMissingMessage⟩) ⟨0, 0, false, 0⟩).2 =
      .scheduleNext ((20000 : ℚ) * (3 / 2)) ∧
    (CameraFeedA.loop 20000 0 true true true true true true
        (.thrown ⟨"Error", GeminiService.apiKeyMissingMessage⟩) ⟨0, 0, false, 0⟩).2 ≠
      LoopEffect.exit ∧
    (CameraFeedA.loop 20000 0 true true true true true true
        (.thrown ⟨"Error", GeminiService.apiKeyMissingMessage⟩) ⟨0, 0, false, 0⟩).1 =
      ⟨0, 0, false, 0⟩ :=
  ⟨rfl, by decide, rfl, by decide, rfl⟩

/-- C2, amended: an error thrown into the scheduler loop never makes the loop
exit — every eligible thrown failure is absorbed and converted into either
the exponential-backoff reschedule (quota-marked message) or the
`1.5 × intervalMs` slowed retry, in both CameraFeed variants; a missing API
credential produces exactly such a thrown (non-quota) error; only a message
routed through the `onError` channel stops the loop, via the App handler that
disables analysis. -/
theorem C2_loop_absorbs_thrown (I now : ℕ) (st : CameraFeedA.LoopState)
    (stB : CameraFeedB.LoopState) (e : ErrObj) (app : App.AppState) (msg : String)
    (hname : e.name ≠ "SecurityError") (helig : st.nextRetryTime ≤ now) :
    (CameraFeedA.loop I now true true true true true true (.thrown e) st).2 ≠ LoopEffect.exit ∧
    (CameraFeedA.loop I now true true true true true true (.thrown e) st).2 =
      (if isQuota (loopErrorMessage e)
       then LoopEffect.scheduleNext ((CameraFeedA.backoffMs (st.errorCount + 1) : ℕ) : ℚ)
       else LoopEffect.scheduleNext ((I : ℚ) * (3 / 2))) ∧
    (CameraFeedB.loop I true true true true true true (.thrown e) stB).2 ≠ LoopEffect.exit ∧
    (∀ (call : GeminiService.GenContentResult) (parsed : Except ErrObj GeminiService.ServiceJson)
       (tsStr : String) (nowMs : ℕ),
       GeminiService.analyzeTrafficFrame none call parsed tsStr nowMs =
         Except.error ⟨"Error", GeminiService.apiKeyMissingMessage⟩) ∧
    isQuota (loopErrorMessage ⟨"Error", GeminiService.apiKeyMissingMessage⟩) = false ∧
    (App.handleError app msg).isAnalyzing = false := by
  have hA := loop_thrown_eq I now st e hname helig
  have hB := loopB_thrown_eq I stB e hname
  refine ⟨?_, ?_, ?_, fun call parsed tsStr nowMs => rfl, by decide, rfl⟩
  · rw [hA]; split <;> simp
  · rw [hA]; split <;> simp
  · rw [hB]; split <;> simp

/-- Witness for the amended C2 at a concrete thrown error and eligible state. -/
theorem C2_loop_absorbs_thrown_witness :
    ((⟨"Error", "boom"⟩ : ErrObj).name ≠ "SecurityError" ∧
     (⟨1, 4, true, 2⟩ : CameraFeedA.LoopState).nextRetryTime ≤ 5) ∧
    ((CameraFeedA.loop 20000 5 true true true true true true
         (.thrown ⟨"Error", "boom"⟩) ⟨1, 4, true, 2⟩).2 ≠ LoopEffect.exit ∧
     (CameraFeedA.loop 20000 5 true true true true true true
         (.thrown ⟨"Error", "boom"⟩) ⟨1, 4, true, 2⟩).2 =
       (if isQuota (loopErrorMessage ⟨"Error", "boom"⟩)
        then LoopEffect.scheduleNext ((CameraFeedA.backoffMs (1 + 1) : ℕ) : ℚ)
        else LoopEffect.scheduleNext ((20000 : ℚ) * (3 / 2))) ∧
     (CameraFeedB.loop 20000 true true true true true true
         (.thrown ⟨"Error", "boom"⟩) ⟨0, false⟩).2 ≠ LoopEffect.exit ∧
     (∀ (call : GeminiService.GenContentResult) (parsed : Except ErrObj GeminiService.ServiceJson)
        (tsStr : String) (nowMs : ℕ),
        GeminiService.analyzeTrafficFrame none call parsed tsStr nowMs =
          Except.error ⟨"Error", GeminiService.apiKeyMissingMessage⟩) ∧
     isQuota (loopErrorMessage ⟨"Error", GeminiService.apiKeyMissingMessage⟩) = false ∧
     (App.handleError ⟨true, [], none, none⟩ "camera denied").isAnalyzing = false) :=
  ⟨⟨by decide, by decide⟩,
   C2_loop_absorbs_thrown 20000 5 ⟨1, 4, true, 2⟩ ⟨0, false⟩ ⟨"Error", "boom"⟩
     ⟨true, [], none, none⟩ "camera denied" (by decide) (by decide)⟩

/-- C8, counterexample to the claim as stated: a well-formed service response
missing `vehicleCount`, `congestionLevel` and `description` is neither
rejected nor converted — `analyzeTrafficFrame` returns it as a
partially-typed success whose three fields are all undefined (only
`detectedObjects` was defaulted to the empty sequence). -/
theorem C8_partial_result_counterexample :
    GeminiService.analyzeTrafficFrame (some "key") (.ok (some "x"))
        (.ok ⟨none, none, none, none⟩) "12:00:00" 0 =
      .ok ⟨none, none, none, [], "12:00:00", 0⟩ ∧
    (⟨none, none, none, [], "12:00:00", 0⟩ : TrafficAnalysisResult).vehicleCount = none ∧
    (⟨none, none, none, [], "12:00:00", 0⟩ : TrafficAnalysisResult).congestionLevel = none ∧
    (⟨none, none, none, [], "12:00:00", 0⟩ : TrafficAnalysisResult).description = none :=
  ⟨rfl, rfl, rfl, rfl⟩

/-- C8, amended: the client defaults a missing `detectedObjects` to the empty
sequence and rejects a missing or empty response text with
`"No response from Gemini"`, but it performs no client-side validation of
the other top-level fields: every accepted response is copied through with
`vehicleCount`, `congestionLevel` and `description` exactly as parsed,
undefined included (required-ness is only requested of the service via the
response schema). -/
theorem C8_field_passthrough (key text tsStr : String)
    (json : GeminiService.ServiceJson) (nowMs : ℕ) (htext : text ≠ "") :
    GeminiService.analyzeTrafficFrame (some key) (.ok (some text)) (.ok json) tsStr nowMs =
      .ok { vehicleCount := json.vehicleCount, congestionLevel := json.congestionLevel,
            description := json.description,
            detectedObjects := json.detectedObjects.getD [],
            timestamp := tsStr, processedAt := nowMs } ∧
    (json.detectedObjects = none →
      GeminiService.analyzeTrafficFrame (some key) (.ok (some text)) (.ok json) tsStr nowMs =
        .ok { vehicleCount := json.vehicleCount, congestionLevel := json.congestionLevel,
              description := json.description, detectedObjects := [],
              timestamp := tsStr, processedAt := nowMs }) ∧
    (∀ parsed : Except ErrObj GeminiService.ServiceJson,
      GeminiService.analyzeTrafficFrame (some key) (.ok none) parsed tsStr nowMs =
        .error ⟨"Error", "No response from Gemini"⟩) := by
  have h1 : GeminiService.analyzeTrafficFrame (some key) (.ok (some text)) (.ok json) tsStr nowMs =
      .ok { vehicleCount := json.vehicleCount, congestionLevel := json.congestionLevel,
            description := json.description,
            detectedObjects := json.detectedObjects.getD [],
            timestamp := tsStr, processedAt := nowMs } := by
    simp [GeminiService.analyzeTrafficFrame, htext]
  refine ⟨h1, ?_, fun parsed => rfl⟩
  intro h
  rw [h1, h]
  rfl

/-- Witness for the amended C8 at a concrete response missing
`detectedObjects`. -/
theorem C8_field_passthrough_witness :
    ("x" : String) ≠ "" ∧
    (GeminiService.analyzeTrafficFrame (some "key") (.ok (some "x"))
         (.ok ⟨some 5, some "Medium", some "busy road", none⟩) "12:00:00" 7 =
       .ok { vehicleCount := some 5, congestionLevel := some "Medium",
             description := some "busy road",
             detectedObjects := (none : Option (List BoundingBox)).getD [],
             timestamp := "12:00:00", processedAt := 7 } ∧
     ((none : Option (List BoundingBox)) = none →
       GeminiService.analyzeTrafficFrame (some "key") (.ok (some "x"))
           (.ok ⟨some 5, some "Medium", some "busy road", none⟩) "12:00:00" 7 =
         .ok { vehicleCount := some 5, congestionLevel := some "Medium",
               description := some "busy road", detectedObjects := [],
               timestamp := "12:00:00", processedAt := 7 }) ∧
     (∀ parsed : Except ErrObj GeminiService.ServiceJson,
       GeminiService.analyzeTrafficFrame (some "key") (.ok none) parsed "12:00:00" 7 =
         .error ⟨"Error", "No response from Gemini"⟩)) :=
  ⟨by decide,
   C8_field_passthrough "key" "x" "12:00:00" ⟨some 5, some "Medium", some "busy road", none⟩ 7
     (by decide)⟩

/-- Monotonicity of `nextRetryTime` over a single loop invocation: the quota
branch is only reachable once the eligibility gate certified
`nextRetryTime ≤ now`, and it moves the timestamp forward to
`now + backoff`; every other branch leaves it unchanged. -/
theorem loop_nextRetryTime_mono (I now : ℕ) (mnt an ac v c cx : Bool) (t : TryOutcome)
    (st : CameraFeedA.LoopState) :
    st.nextRetryTime ≤ (CameraFeedA.loop I now mnt an ac v c cx t st).1.nextRetryTime := by
  unfold CameraFeedA.loop
  repeat' split
  all_goals dsimp only
  all_goals omega

/-- C9: along every execution of the scheduler loop, `nextRetryTime` is
monotonically non-decreasing from step to step: every single loop invocation
(success, quota, transient, recheck or exit — a successful cycle included,
which merely leaves the timestamp unchanged) can only keep or increase it,
the manual override explicitly resets it to 0, and along any event sequence
consecutive states always satisfy non-decrease-or-explicit-reset. -/
theorem C9_nextRetryTime_monotone :
    (∀ (I now : ℕ) (mnt an ac v c cx : Bool) (t : TryOutcome) (st : CameraFeedA.LoopState),
       st.nextRetryTime ≤ (CameraFeedA.loop I now mnt an ac v c cx t st).1.nextRetryTime) ∧
    (∀ st : CameraFeedA.LoopState, (CameraFeedA.handleForceRetry st).nextRetryTime = 0) ∧
    (∀ (I : ℕ) (st : CameraFeedA.LoopState) (es : List CameraFeedA.SchedEvent),
       List.Chain
         (fun s u => s.nextRetryTime ≤ u.nextRetryTime ∨ u.nextRetryTime = 0) st
         (CameraFeedA.schedStates I st es)) := by
  refine ⟨loop_nextRetryTime_mono, fun st => rfl, ?_⟩
  intro I st es
  induction es generalizing st with
  | nil => exact List.Chain.nil
  | cons e es ih =>
    refine List.Chain.cons ?_ (ih _)
    cases e with
    | cycle now mnt an ac v c cx t =>
      exact Or.inl (loop_nextRetryTime_mono I now mnt an ac v c cx t st)
    | forceRetry => exact Or.inr rfl
